import Mathlib

/-!
Shallow embedding of the blog-management page (`BlogManagement`, with its
`BlogPost` / `BlogPostFormData` types) and of the URL-configuration hook
(`useUrlData`) of the rapatin repository, together with proofs of the
frozen claims about them.

Strings are Lean `String`s; JavaScript truthiness on strings is the test
against `""`; nullable database columns are `Option String`; the current
time (`new Date().toISOString()`) is passed in as an explicit `now`
parameter.
-/

namespace Rapatin

/-! ## JavaScript string primitives used by the slug transform -/

/-- JS regex class `\w` (no `u` flag): `[A-Za-z0-9_]`, stated on code points. -/
def jsWord (c : Char) : Prop :=
  (97 ≤ c.toNat ∧ c.toNat ≤ 122) ∨ (65 ≤ c.toNat ∧ c.toNat ≤ 90) ∨
    (48 ≤ c.toNat ∧ c.toNat ≤ 57) ∨ c.toNat = 95

instance (c : Char) : Decidable (jsWord c) := by
  unfold jsWord; infer_instance

/-- JS regex class `\s`: tab through carriage return, space, and the Unicode
whitespace code points (NBSP, Ogham space, en quad .. hair space, line and
paragraph separators, narrow NBSP, medium mathematical space, ideographic
space, BOM). -/
def jsSpace (c : Char) : Prop :=
  (9 ≤ c.toNat ∧ c.toNat ≤ 13) ∨ c.toNat = 32 ∨ c.toNat = 160 ∨
    c.toNat = 5760 ∨ (8192 ≤ c.toNat ∧ c.toNat ≤ 8202) ∨ c.toNat = 8232 ∨
    c.toNat = 8233 ∨ c.toNat = 8239 ∨ c.toNat = 8287 ∨ c.toNat = 12288 ∨
    c.toNat = 65279

instance (c : Char) : Decidable (jsSpace c) := by
  unfold jsSpace; infer_instance

/-- ASCII fragment of `String.prototype.toLowerCase`: uppercase ASCII letters
are mapped to lowercase; every other character is passed through (non-ASCII
characters play no further role here because the next step of the slug
transform filters on `\w` and `\s`). -/
def jsToLower (c : Char) : Char :=
  if 65 ≤ c.toNat ∧ c.toNat ≤ 90 then Char.ofNat (c.toNat + 32) else c

/-- `replace(/\s+/g, '-')` on a character list: each maximal run of
whitespace becomes a single hyphen.  The boolean records whether the
previous character was part of a whitespace run. -/
def collapseSpacesAux : Bool → List Char → List Char
  | _, [] => []
  | inRun, c :: rest =>
    if jsSpace c then
      (if inRun then [] else ['-']) ++ collapseSpacesAux true rest
    else
      c :: collapseSpacesAux false rest

/-- The slug derivation inlined in `handleCreatePost` and `handleUpdatePost`:
`title.toLowerCase().replace(/[^\w\s]/gi, '').replace(/\s+/g, '-')`. -/
def generateSlug (title : String) : String :=
  String.mk
    (collapseSpacesAux false
      ((title.toList.map jsToLower).filter fun c => decide (jsWord c ∨ jsSpace c)))

/-- JS `v || dflt` on a nullable string column: the default is taken when the
value is `null` or the empty string. -/
def jsOr (v : Option String) (dflt : String) : String :=
  match v with
  | none => dflt
  | some s => if s = "" then dflt else s

/-! ### Character-class facts about the slug transform -/

theorem jsWord_not_jsSpace {c : Char} (h : jsWord c) : ¬ jsSpace c := by
  rcases c with ⟨⟨n, _⟩, _⟩
  simp only [jsWord, jsSpace, Char.toNat] at h ⊢
  omega

theorem hyphen_not_jsSpace : ¬ jsSpace '-' := by decide

theorem mem_collapseSpacesAux {b : Bool} {l : List Char}
    (hl : ∀ c ∈ l, jsWord c ∨ jsSpace c) :
    ∀ c ∈ collapseSpacesAux b l, jsWord c ∨ c = '-' := by
  induction l generalizing b with
  | nil => intro c hc; simp [collapseSpacesAux] at hc
  | cons a rest ih =>
    intro c hc
    have ha := hl a (List.mem_cons_self a rest)
    have hrest : ∀ c ∈ rest, jsWord c ∨ jsSpace c := fun c hc =>
      hl c (List.mem_cons_of_mem a hc)
    by_cases hsp : jsSpace a
    · simp only [collapseSpacesAux, if_pos hsp, List.mem_append] at hc
      rcases hc with hc | hc
      · right
        cases b
        · simpa using hc
        · simp at hc
      · exact ih hrest c hc
    · simp only [collapseSpacesAux, if_neg hsp, List.mem_cons] at hc
      rcases hc with rfl | hc
      · exact Or.inl (ha.resolve_right hsp)
      · exact ih hrest c hc

/-! ## Blog data model (`BlogTypes`) -/

/-- `BlogPostFormData = Omit<BlogPost, 'id' | 'date'>`: the admin form state. -/
structure BlogPostFormData where
  title : String
  slug : String
  excerpt : String
  content : String
  coverImage : String
  category : String
  author : String
  status : String
  publishedAt : String
  seoTitle : String
  metaDescription : String
  focusKeyword : String
deriving DecidableEq, Repr

/-- `defaultBlogPostFormData` from `BlogTypes`. -/
def defaultBlogPostFormData : BlogPostFormData :=
  { title := "", slug := "", excerpt := "", content := "", coverImage := ""
    category := "", author := "Admin", status := "draft", publishedAt := ""
    seoTitle := "", metaDescription := "", focusKeyword := "" }

/-- A row of the `blog_posts` backend table.  `id`, `created_at` and `status`
are written on every mutation path; the remaining text columns are nullable
(the fetch mapping guards each of them with `|| ...`). -/
structure BlogPostRow where
  id : String
  created_at : String
  title : Option String
  slug : Option String
  excerpt : Option String
  content : Option String
  cover_image : Option String
  category : Option String
  author : Option String
  status : String
  published_at : Option String
  seo_title : Option String
  meta_description : Option String
  focus_keyword : Option String
deriving DecidableEq, Repr

/-- The column record passed to `insert` / `update` by the create and update
mutations (all values are strings computed from the form). -/
structure BlogPostWrite where
  title : String
  slug : String
  excerpt : String
  content : String
  cover_image : String
  category : String
  author : String
  status : String
  published_at : String
  seo_title : String
  meta_description : String
  focus_keyword : String
deriving DecidableEq, Repr

/-- The `BlogPost` shape the fetch query maps rows into. -/
structure BlogPost where
  id : String
  title : String
  slug : String
  excerpt : String
  content : String
  coverImage : String
  category : String
  author : String
  date : String
  status : String
  publishedAt : String
  seoTitle : String
  metaDescription : String
  focusKeyword : String
deriving DecidableEq, Repr

/-- A toast notification (`useToast`): variant, title and description. -/
structure Toast where
  variant : String
  title : String
  description : String
deriving DecidableEq, Repr

/-- The component state of `BlogManagement` that the claims mention:
`isCreating`, `isEditing`, `formData`, plus the list of toasts shown so
far (`isEditing` is `string | null` in the source). -/
structure ComponentState where
  isCreating : Bool
  isEditing : Option String
  formData : BlogPostFormData
  toasts : List Toast
deriving DecidableEq, Repr

/-- The destructive toast raised when title or content is empty
("Judul dan konten harus diisi"). -/
def validationToast : Toast :=
  { variant := "destructive", title := "Terjadi kesalahan"
    description := "Judul dan konten harus diisi" }

/-- The destructive toast raised by every mutation `onError` handler. -/
def mutationErrorToast (msg : String) : Toast :=
  { variant := "destructive", title := "Terjadi kesalahan", description := msg }

/-! ## Mutations against the `blog_posts` table -/

/-- `createPostMutation.mutationFn`: the column record inserted for form data
`postData`, with `now` standing for `new Date().toISOString()`. -/
def createPostMutationFn (now : String) (postData : BlogPostFormData) : BlogPostWrite :=
  { title := postData.title
    slug := postData.slug
    excerpt := postData.excerpt
    content := postData.content
    cover_image := postData.coverImage
    category := postData.category
    author := postData.author
    status := postData.status
    published_at := if postData.status = "published" then now else postData.publishedAt
    seo_title := postData.seoTitle
    meta_description := postData.metaDescription
    focus_keyword := postData.focusKeyword }

/-- `updatePostMutation.mutationFn`: the column record written by `update`
for form data `postData` (`!postData.publishedAt` is the test against `""`). -/
def updatePostMutationFn (now : String) (postData : BlogPostFormData) : BlogPostWrite :=
  { title := postData.title
    slug := postData.slug
    excerpt := postData.excerpt
    content := postData.content
    cover_image := postData.coverImage
    category := postData.category
    author := postData.author
    status := postData.status
    published_at :=
      if postData.status = "published" ∧ postData.publishedAt = "" then now
      else postData.publishedAt
    seo_title := postData.seoTitle
    meta_description := postData.metaDescription
    focus_keyword := postData.focusKeyword }

/-- `publishPostMutation.mutationFn` on the targeted row: it updates
`status` to `'published'` and `published_at` to the current time. -/
def publishPostMutationFn (now : String) (r : BlogPostRow) : BlogPostRow :=
  { r with status := "published", published_at := some now }

/-- `deletePostMutation.mutationFn` on the backend table:
`delete().eq('id', id)` removes every row whose id matches. -/
def deletePostMutationFn (table : List BlogPostRow) (id : String) : List BlogPostRow :=
  table.filter fun r => decide (r.id ≠ id)

/-- Row-to-`BlogPost` mapping of the `blog-posts` query; `fmt` stands for the
locale date rendering `new Date(...).toLocaleDateString('id-ID', ...)`,
which is environment-provided and opaque to the claims. -/
def rowToBlogPost (fmt : String → String) (post : BlogPostRow) : BlogPost :=
  { id := post.id
    title := jsOr post.title ""
    slug := jsOr post.slug ""
    excerpt := jsOr post.excerpt ""
    content := jsOr post.content ""
    coverImage := jsOr post.cover_image ""
    category := jsOr post.category ""
    author := jsOr post.author "Admin"
    date := fmt post.created_at
    status := post.status
    publishedAt := jsOr post.published_at ""
    seoTitle := jsOr post.seo_title ""
    metaDescription := jsOr post.meta_description ""
    focusKeyword := jsOr post.focus_keyword "" }

/-- The `blog-posts` query: select all rows ordered by `created_at`
descending, then map them into the `BlogPost` shape. -/
def blogPostsQueryFn (fmt : String → String) (table : List BlogPostRow) : List BlogPost :=
  (table.insertionSort fun a b => b.created_at ≤ a.created_at).map (rowToBlogPost fmt)

/-! ## Handlers and `onError` callbacks of `BlogManagement` -/

/-- `handleCreatePost` as a transformer of the component state, returning the
new state together with the payload passed to `createPostMutation.mutate`
(`none` when no network call is issued).  Empty title or content aborts with
a destructive toast; an empty slug is replaced by the derived one. -/
def handleCreatePost (s : ComponentState) :
    ComponentState × Option BlogPostFormData :=
  if s.formData.title = "" ∨ s.formData.content = "" then
    ({ s with toasts := s.toasts ++ [validationToast] }, none)
  else
    let finalSlug :=
      if s.formData.slug = "" then generateSlug s.formData.title else s.formData.slug
    (s, some { s.formData with slug := finalSlug })

/-- `handleUpdatePost` as a transformer of the component state, returning the
new state together with the `id` and payload passed to
`updatePostMutation.mutate`.  A null (or falsy empty) `isEditing` returns
silently; empty title or content aborts with a destructive toast. -/
def handleUpdatePost (s : ComponentState) :
    ComponentState × Option (String × BlogPostFormData) :=
  match s.isEditing with
  | none => (s, none)
  | some id =>
    if id = "" then (s, none)
    else if s.formData.title = "" ∨ s.formData.content = "" then
      ({ s with toasts := s.toasts ++ [validationToast] }, none)
    else
      let finalSlug :=
        if s.formData.slug = "" then generateSlug s.formData.title else s.formData.slug
      (s, some (id, { s.formData with slug := finalSlug }))

/-- `createPostMutation.onError`: shows a destructive toast with the error
message and changes nothing else. -/
def createPostMutationOnError (msg : String) (s : ComponentState) : ComponentState :=
  { s with toasts := s.toasts ++ [mutationErrorToast msg] }

/-- `updatePostMutation.onError`. -/
def updatePostMutationOnError (msg : String) (s : ComponentState) : ComponentState :=
  { s with toasts := s.toasts ++ [mutationErrorToast msg] }

/-- `deletePostMutation.onError`. -/
def deletePostMutationOnError (msg : String) (s : ComponentState) : ComponentState :=
  { s with toasts := s.toasts ++ [mutationErrorToast msg] }

/-- `publishPostMutation.onError`. -/
def publishPostMutationOnError (msg : String) (s : ComponentState) : ComponentState :=
  { s with toasts := s.toasts ++ [mutationErrorToast msg] }

/-! ## `useUrlData`: URL configuration with heap-allocated section objects

The module-level `defaultUrls` literal allocates one object per section
(hero, cta, navbar, pricing, dashboard).  `mapUrlsToState` copies it with a
shallow spread `{ ...defaultUrls }` — copying the references to the section
objects, not the objects — and then assigns through those references.  The
heap is modelled as one store per section type indexed by `Nat` addresses;
a top-level urls value is a record of addresses.  The module's allocation
puts each default section object at address 0. -/

structure HeroUrls where
  ctaButton : String
  pricingButton : String
deriving DecidableEq, Repr

structure CtaUrls where
  registerButton : String
deriving DecidableEq, Repr

structure NavbarUrls where
  loginButton : String
  registerButton : String
deriving DecidableEq, Repr

structure PricingUrls where
  scheduleButton : String
deriving DecidableEq, Repr

structure DashboardUrls where
  registerButton : String
deriving DecidableEq, Repr

/-- One item of a `urls` row: only the `url` field is read. -/
structure UrlItem where
  url : String
deriving DecidableEq, Repr

/-- A row of the `urls` table (the `Urls` type): a group id and a nullable
list of items. -/
structure UrlGroup where
  id : String
  items : Option (List UrlItem)
deriving DecidableEq, Repr

/-- The mutable heap of section objects, one store per section type. -/
structure JSHeap where
  hero : Nat → HeroUrls
  cta : Nat → CtaUrls
  navbar : Nat → NavbarUrls
  pricing : Nat → PricingUrls
  dashboard : Nat → DashboardUrls

/-- A JS value of the top-level urls shape: references (heap addresses) to
the five section objects. -/
structure UrlsValue where
  hero : Nat
  cta : Nat
  navbar : Nat
  pricing : Nat
  dashboard : Nat
deriving DecidableEq, Repr

/-- A fully dereferenced snapshot of a urls value. -/
structure UrlMap where
  hero : HeroUrls
  cta : CtaUrls
  navbar : NavbarUrls
  pricing : PricingUrls
  dashboard : DashboardUrls
deriving DecidableEq, Repr

/-- The contents of the `defaultUrls` literal. -/
def defaultUrlsLiteral : UrlMap :=
  { hero := { ctaButton := "https://rapatin.id/register", pricingButton := "#pricing" }
    cta := { registerButton := "https://rapatin.id/register" }
    navbar := { loginButton := "https://rapatin.id/login"
                registerButton := "https://rapatin.id/register" }
    pricing := { scheduleButton := "https://app.rapatin.id/register" }
    dashboard := { registerButton := "https://app.rapatin.id/register" } }

/-- The module-level `defaultUrls` binding: references to the five section
objects allocated at module load, at address 0 of each store. -/
def defaultUrls : UrlsValue :=
  { hero := 0, cta := 0, navbar := 0, pricing := 0, dashboard := 0 }

/-- The heap as the module leaves it after evaluating the `defaultUrls`
literal: address 0 of each store holds the literal section contents (no
other address is ever referenced). -/
def moduleHeap : JSHeap :=
  { hero := fun _ => defaultUrlsLiteral.hero
    cta := fun _ => defaultUrlsLiteral.cta
    navbar := fun _ => defaultUrlsLiteral.navbar
    pricing := fun _ => defaultUrlsLiteral.pricing
    dashboard := fun _ => defaultUrlsLiteral.dashboard }

/-- Shallow spread `{ ...u }` of a top-level urls value: it copies the five
references and allocates no section object. -/
def spreadUrls (u : UrlsValue) : UrlsValue :=
  { hero := u.hero, cta := u.cta, navbar := u.navbar
    pricing := u.pricing, dashboard := u.dashboard }

/-- Dereference a top-level urls value in a heap. -/
def readUrls (h : JSHeap) (u : UrlsValue) : UrlMap :=
  { hero := h.hero u.hero, cta := h.cta u.cta, navbar := h.navbar u.navbar
    pricing := h.pricing u.pricing, dashboard := h.dashboard u.dashboard }

/-- Assignment `o.f = v` through a hero reference `i`. -/
def writeHero (h : JSHeap) (i : Nat) (f : HeroUrls → HeroUrls) : JSHeap :=
  { h with hero := fun j => if j = i then f (h.hero i) else h.hero j }

def writeCta (h : JSHeap) (i : Nat) (f : CtaUrls → CtaUrls) : JSHeap :=
  { h with cta := fun j => if j = i then f (h.cta i) else h.cta j }

def writeNavbar (h : JSHeap) (i : Nat) (f : NavbarUrls → NavbarUrls) : JSHeap :=
  { h with navbar := fun j => if j = i then f (h.navbar i) else h.navbar j }

def writePricing (h : JSHeap) (i : Nat) (f : PricingUrls → PricingUrls) : JSHeap :=
  { h with pricing := fun j => if j = i then f (h.pricing i) else h.pricing j }

def writeDashboard (h : JSHeap) (i : Nat) (f : DashboardUrls → DashboardUrls) : JSHeap :=
  { h with dashboard := fun j => if j = i then f (h.dashboard i) else h.dashboard j }

/-- The body of the `data.forEach` loop of `mapUrlsToState` for one group:
each branch requires the matching id, a non-null `items`, and enough items,
and assigns `items[k].url` through `newUrls`'s section references. -/
def applyGroup (newUrls : UrlsValue) (h : JSHeap) (g : UrlGroup) : JSHeap :=
  match g.items with
  | none => h
  | some items =>
    if g.id = "1" ∧ 2 ≤ items.length then
      let h1 := writeHero h newUrls.hero
        fun o => { o with ctaButton := (items.getD 0 { url := "" }).url }
      writeHero h1 newUrls.hero
        fun o => { o with pricingButton := (items.getD 1 { url := "" }).url }
    else if g.id = "2" ∧ 1 ≤ items.length then
      writeCta h newUrls.cta
        fun o => { o with registerButton := (items.getD 0 { url := "" }).url }
    else if g.id = "3" ∧ 2 ≤ items.length then
      let h1 := writeNavbar h newUrls.navbar
        fun o => { o with loginButton := (items.getD 0 { url := "" }).url }
      writeNavbar h1 newUrls.navbar
        fun o => { o with registerButton := (items.getD 1 { url := "" }).url }
    else if g.id = "4" ∧ 1 ≤ items.length then
      writePricing h newUrls.pricing
        fun o => { o with scheduleButton := (items.getD 0 { url := "" }).url }
    else if g.id = "5" ∧ 1 ≤ items.length then
      writeDashboard h newUrls.dashboard
        fun o => { o with registerButton := (items.getD 0 { url := "" }).url }
    else h

/-- `mapUrlsToState`: spread the module-level `defaultUrls`, assign the
fetched groups through the copied references, and make the result the new
`urls` state.  Returns the heap after the loop and the value passed to
`setUrls`. -/
def mapUrlsToState (h : JSHeap) (data : List UrlGroup) : JSHeap × UrlsValue :=
  let newUrls := spreadUrls defaultUrls
  (data.foldl (applyGroup newUrls) h, newUrls)

/-- The failure path of `fetchUrls`: the Supabase call errored.  When local
storage holds a cached copy it is fed to `mapUrlsToState`; otherwise the
`urls` state keeps its initial `useState(defaultUrls)` value.  Returns the
heap and the current `urls` state value. -/
def fetchUrlsFailure (h : JSHeap) (localData : Option (List UrlGroup)) :
    JSHeap × UrlsValue :=
  match localData with
  | some parsedData => mapUrlsToState h parsedData
  | none => (h, defaultUrls)

/-- Spec-side overlay of one group onto a pure snapshot (no heap, no
aliasing): the reading of 4.2's "overlays values onto a hardcoded default
map by matching group identifiers". -/
def overlayGroupSpec (m : UrlMap) (g : UrlGroup) : UrlMap :=
  match g.items with
  | none => m
  | some items =>
    if g.id = "1" ∧ 2 ≤ items.length then
      { m with hero := { ctaButton := (items.getD 0 { url := "" }).url
                         pricingButton := (items.getD 1 { url := "" }).url } }
    else if g.id = "2" ∧ 1 ≤ items.length then
      { m with cta := { registerButton := (items.getD 0 { url := "" }).url } }
    else if g.id = "3" ∧ 2 ≤ items.length then
      { m with navbar := { loginButton := (items.getD 0 { url := "" }).url
                           registerButton := (items.getD 1 { url := "" }).url } }
    else if g.id = "4" ∧ 1 ≤ items.length then
      { m with pricing := { scheduleButton := (items.getD 0 { url := "" }).url } }
    else if g.id = "5" ∧ 1 ≤ items.length then
      { m with dashboard := { registerButton := (items.getD 0 { url := "" }).url } }
    else m

/-- Spec-side overlay of a whole fetched list onto a pure snapshot. -/
def overlaySpec (m : UrlMap) (data : List UrlGroup) : UrlMap :=
  data.foldl overlayGroupSpec m

/-! ## Claim theorems -/

/-- A concrete row that already carries a publish timestamp (a draft that
was published once and edited back to draft keeps its `published_at`). -/
def publishedDraftRow : BlogPostRow :=
  { id := "p1", created_at := "2024-01-01T00:00:00.000Z", title := some "T"
    slug := some "t", excerpt := none, content := some "isi"
    cover_image := none, category := none, author := none, status := "draft"
    published_at := some "2024-02-02T08:00:00.000Z", seo_title := none
    meta_description := none, focus_keyword := none }

/-- C1 (counterexample): the claim says a post that already has a publish
time keeps it; but `publishPostMutation` writes `new Date().toISOString()`
unconditionally, so publishing `publishedDraftRow` at a later time replaces
its existing, non-empty publish timestamp. -/
theorem publish_overwrites_existing_published_at :
    publishedDraftRow.published_at ≠ none ∧
    publishedDraftRow.published_at ≠ some "" ∧
    (publishPostMutationFn "2026-10-11T00:00:00.000Z" publishedDraftRow).published_at
      ≠ publishedDraftRow.published_at := by
  refine ⟨by decide, by decide, by decide⟩

/-- C1 (amended): the publish operation sets the post's status to
`published` and unconditionally assigns the current time as its publish
timestamp, overwriting any publish time the post already had. -/
theorem publish_sets_status_and_stamps_now (now : String) (r : BlogPostRow) :
    (publishPostMutationFn now r).status = "published" ∧
    (publishPostMutationFn now r).published_at = some now :=
  ⟨rfl, rfl⟩

/-- C2: every character of the slug derived from a title is a word
character or one of the hyphens substituted for whitespace runs; in
particular the derived slug contains no whitespace. -/
theorem derived_slug_chars (title : String) (c : Char)
    (hc : c ∈ (generateSlug title).toList) :
    (jsWord c ∨ c = '-') ∧ ¬ jsSpace c := by
  have hmem : ∀ d ∈ (title.toList.map jsToLower).filter
      (fun c => decide (jsWord c ∨ jsSpace c)), jsWord d ∨ jsSpace d := by
    intro d hd
    have h2 := (List.mem_filter.mp hd).2
    simpa using h2
  have h1 : jsWord c ∨ c = '-' := mem_collapseSpacesAux hmem c hc
  refine ⟨h1, ?_⟩
  rcases h1 with hw | rfl
  · exact jsWord_not_jsSpace hw
  · exact hyphen_not_jsSpace

/-- Witness for C2 at the title "He llo!": the derived slug is "he-llo" and
the hyphen in it is covered by the theorem. -/
theorem derived_slug_chars_witness :
    (jsWord '-' ∨ '-' = '-') ∧ ¬ jsSpace '-' :=
  derived_slug_chars "He llo!" '-' (by decide)

/-- C4: the update mutation writes `published_at = now` exactly when the
form status is `published` and the form `publishedAt` is empty; in every
other case the form's `publishedAt` is written unchanged. -/
theorem update_published_at_policy (now : String) (postData : BlogPostFormData) :
    (postData.status = "published" ∧ postData.publishedAt = "" →
      (updatePostMutationFn now postData).published_at = now) ∧
    (postData.publishedAt ≠ "" ∨ postData.status ≠ "published" →
      (updatePostMutationFn now postData).published_at = postData.publishedAt) := by
  constructor
  · intro h
    simp only [updatePostMutationFn]
    rw [if_pos h]
  · intro h
    have hn : ¬ (postData.status = "published" ∧ postData.publishedAt = "") := by
      tauto
    simp only [updatePostMutationFn]
    rw [if_neg hn]

/-- A published form with an empty `publishedAt`. -/
def publishedEmptyForm : BlogPostFormData :=
  { defaultBlogPostFormData with title := "T", content := "isi", status := "published" }

/-- A draft form with a non-empty `publishedAt`. -/
def draftStampedForm : BlogPostFormData :=
  { defaultBlogPostFormData with
    title := "T"
    content := "isi"
    status := "draft"
    publishedAt := "2024-02-02T08:00:00.000Z" }

/-- Witness for C4: both branches of the policy at concrete forms. -/
theorem update_published_at_policy_witness :
    (updatePostMutationFn "2026-10-11T00:00:00.000Z" publishedEmptyForm).published_at
      = "2026-10-11T00:00:00.000Z" ∧
    (updatePostMutationFn "2026-10-11T00:00:00.000Z" draftStampedForm).published_at
      = "2024-02-02T08:00:00.000Z" :=
  ⟨(update_published_at_policy "2026-10-11T00:00:00.000Z" publishedEmptyForm).1
      ⟨rfl, rfl⟩,
   (update_published_at_policy "2026-10-11T00:00:00.000Z" draftStampedForm).2
      (Or.inl (by decide))⟩

/-- C7: every mutation `onError` handler (create, update, delete, publish)
only appends a destructive toast: `isCreating`, `isEditing` and `formData`
keep their values. -/
theorem mutation_onError_preserves_view (msg : String) (s : ComponentState) :
    ((createPostMutationOnError msg s).isCreating = s.isCreating ∧
     (createPostMutationOnError msg s).isEditing = s.isEditing ∧
     (createPostMutationOnError msg s).formData = s.formData ∧
     (createPostMutationOnError msg s).toasts = s.toasts ++ [mutationErrorToast msg]) ∧
    ((updatePostMutationOnError msg s).isCreating = s.isCreating ∧
     (updatePostMutationOnError msg s).isEditing = s.isEditing ∧
     (updatePostMutationOnError msg s).formData = s.formData ∧
     (updatePostMutationOnError msg s).toasts = s.toasts ++ [mutationErrorToast msg]) ∧
    ((deletePostMutationOnError msg s).isCreating = s.isCreating ∧
     (deletePostMutationOnError msg s).isEditing = s.isEditing ∧
     (deletePostMutationOnError msg s).formData = s.formData ∧
     (deletePostMutationOnError msg s).toasts = s.toasts ++ [mutationErrorToast msg]) ∧
    ((publishPostMutationOnError msg s).isCreating = s.isCreating ∧
     (publishPostMutationOnError msg s).isEditing = s.isEditing ∧
     (publishPostMutationOnError msg s).formData = s.formData ∧
     (publishPostMutationOnError msg s).toasts = s.toasts ++ [mutationErrorToast msg]) :=
  ⟨⟨rfl, rfl, rfl, rfl⟩, ⟨rfl, rfl, rfl, rfl⟩, ⟨rfl, rfl, rfl, rfl⟩,
   ⟨rfl, rfl, rfl, rfl⟩⟩

/-- C3: with an empty title or empty content, both save handlers reject
before any network call: the mutation payload is `none` and the only state
change is the appended validation toast (for update, on any actual editing
session, i.e. a truthy `isEditing`). -/
theorem empty_title_or_content_rejects_save (s : ComponentState)
    (h : s.formData.title = "" ∨ s.formData.content = "") :
    handleCreatePost s =
      ({ s with toasts := s.toasts ++ [validationToast] }, none) ∧
    ∀ id, s.isEditing = some id → id ≠ "" →
      handleUpdatePost s =
        ({ s with toasts := s.toasts ++ [validationToast] }, none) := by
  constructor
  · unfold handleCreatePost
    rw [if_pos h]
  · intro id hid hne
    unfold handleUpdatePost
    rw [hid]
    show (if id = "" then (s, none) else _) = _
    rw [if_neg hne, if_pos h]

/-- A state editing post "42" whose form has content but an empty title. -/
def emptyTitleState : ComponentState :=
  { isCreating := false, isEditing := some "42"
    formData := { defaultBlogPostFormData with content := "isi" }, toasts := [] }

/-- Witness for C3 at `emptyTitleState`: both handlers reject. -/
theorem empty_title_or_content_rejects_save_witness :
    handleCreatePost emptyTitleState =
      ({ emptyTitleState with toasts := [validationToast] }, none) ∧
    handleUpdatePost emptyTitleState =
      ({ emptyTitleState with toasts := [validationToast] }, none) :=
  ⟨(empty_title_or_content_rejects_save emptyTitleState (Or.inl rfl)).1,
   (empty_title_or_content_rejects_save emptyTitleState (Or.inl rfl)).2
      "42" rfl (by decide)⟩

/-- C8: when the form slug is non-empty, any payload the create or update
handler passes to its mutation carries that slug character for character
(the derivation is applied only to an empty slug). -/
theorem nonempty_slug_used_verbatim (s : ComponentState)
    (h : s.formData.slug ≠ "") :
    (∀ p, (handleCreatePost s).2 = some p → p.slug = s.formData.slug) ∧
    (∀ id p, (handleUpdatePost s).2 = some (id, p) → p.slug = s.formData.slug) := by
  constructor
  · intro p hp
    unfold handleCreatePost at hp
    by_cases hv : s.formData.title = "" ∨ s.formData.content = ""
    · rw [if_pos hv] at hp
      simp at hp
    · rw [if_neg hv] at hp
      simp only [if_neg h, Option.some.injEq] at hp
      rw [← hp]
  · intro id p hp
    unfold handleUpdatePost at hp
    rcases hs : s.isEditing with _ | id'
    · simp only [hs] at hp
      simp at hp
    · simp only [hs] at hp
      by_cases hz : id' = ""
      · rw [if_pos hz] at hp
        simp at hp
      · rw [if_neg hz] at hp
        by_cases hv : s.formData.title = "" ∨ s.formData.content = ""
        · rw [if_pos hv] at hp
          simp at hp
        · rw [if_neg hv] at hp
          simp only [if_neg h, Option.some.injEq, Prod.mk.injEq] at hp
          rw [← hp.2]

/-- A state editing post "7" whose form carries the slug "slug-saya". -/
def slugState : ComponentState :=
  { isCreating := false, isEditing := some "7"
    formData :=
      { defaultBlogPostFormData with
        title := "Judul", content := "isi", slug := "slug-saya" }
    toasts := [] }

/-- Witness for C8 at `slugState`: the create payload keeps "slug-saya". -/
theorem nonempty_slug_used_verbatim_witness :
    slugState.formData.slug ≠ "" ∧ slugState.formData.slug = "slug-saya" :=
  ⟨by decide,
   (nonempty_slug_used_verbatim slugState (by decide)).1
      slugState.formData (by decide)⟩

/-- A creation state whose title consists only of non-word, non-whitespace
characters, with non-empty content and an empty slug. -/
def symbolTitleState : ComponentState :=
  { isCreating := true, isEditing := none
    formData := { defaultBlogPostFormData with title := "!!!", content := "isi" }
    toasts := [] }

/-- C9: at `symbolTitleState` the create validation passes (a payload is
issued and the state is untouched) and the slug in the payload — and hence
the slug column inserted by the create mutation — is the empty string. -/
theorem symbol_only_title_gives_empty_slug :
    symbolTitleState.formData.title ≠ "" ∧
    symbolTitleState.formData.content ≠ "" ∧
    symbolTitleState.formData.slug = "" ∧
    (handleCreatePost symbolTitleState).1 = symbolTitleState ∧
    (handleCreatePost symbolTitleState).2 =
      some { symbolTitleState.formData with slug := "" } ∧
    (createPostMutationFn "2026-10-11T00:00:00.000Z"
      { symbolTitleState.formData with slug := "" }).slug = "" := by
  refine ⟨by decide, by decide, by decide, by decide, by decide, by decide⟩

/-- Reading back through the same top-level value after one loop iteration
agrees with the pure overlay of the snapshot. -/
theorem readUrls_applyGroup (r : UrlsValue) (h : JSHeap) (g : UrlGroup) :
    readUrls (applyGroup r h g) r = overlayGroupSpec (readUrls h r) g := by
  rcases g with ⟨gid, items⟩
  cases items with
  | none => rfl
  | some l =>
    simp only [applyGroup, overlayGroupSpec]
    split_ifs <;>
      simp [readUrls, writeHero, writeCta, writeNavbar, writePricing,
        writeDashboard]

/-- Reading back through the same top-level value after the whole
`forEach` loop agrees with the pure overlay of the snapshot. -/
theorem readUrls_foldl_applyGroup (r : UrlsValue) (data : List UrlGroup)
    (h : JSHeap) :
    readUrls (data.foldl (applyGroup r) h) r = overlaySpec (readUrls h r) data := by
  induction data generalizing h with
  | nil => rfl
  | cons g gs ih =>
    show readUrls (gs.foldl (applyGroup r) (applyGroup r h g)) r =
      gs.foldl overlayGroupSpec (overlayGroupSpec (readUrls h r) g)
    rw [ih, readUrls_applyGroup]
    rfl

/-- C5: when the backend fetch fails, the `urls` state (read from the heap
as left by module load) is never empty: with a cached copy in local storage
it equals the hardcoded default map overlaid with that copy, and without
one it remains the hardcoded default map. -/
theorem failed_fetch_keeps_defaults_or_cache (localData : Option (List UrlGroup)) :
    readUrls (fetchUrlsFailure moduleHeap localData).1
        (fetchUrlsFailure moduleHeap localData).2 =
      (match localData with
       | some cached => overlaySpec defaultUrlsLiteral cached
       | none => defaultUrlsLiteral) := by
  cases localData with
  | none => rfl
  | some cached =>
    show readUrls
        (cached.foldl (applyGroup (spreadUrls defaultUrls)) moduleHeap)
        (spreadUrls defaultUrls) = overlaySpec defaultUrlsLiteral cached
    rw [readUrls_foldl_applyGroup]
    rfl

/-- C6: `{ ...defaultUrls }` copies only the references to the section
objects, so the overlay writes through to the module-level defaults: after
any run of `mapUrlsToState` the defaults read back exactly as the new
`urls` state; concretely, overlaying a hero group with urls "X" and "Y"
leaves the defaults mutated away from the original literals, and a later
fetch failure without a cache then falls back to those mutated values, not
the literals. -/
theorem overlay_mutates_module_defaults :
    (∀ (h : JSHeap) (data : List UrlGroup),
      readUrls (mapUrlsToState h data).1 defaultUrls =
        readUrls (mapUrlsToState h data).1 (mapUrlsToState h data).2) ∧
    ((readUrls
        (mapUrlsToState moduleHeap [{ id := "1", items := some [{ url := "X" }, { url := "Y" }] }]).1
        defaultUrls).hero = { ctaButton := "X", pricingButton := "Y" } ∧
     readUrls
        (mapUrlsToState moduleHeap [{ id := "1", items := some [{ url := "X" }, { url := "Y" }] }]).1
        defaultUrls ≠ defaultUrlsLiteral ∧
     readUrls
        (fetchUrlsFailure
          (mapUrlsToState moduleHeap [{ id := "1", items := some [{ url := "X" }, { url := "Y" }] }]).1
          none).1
        (fetchUrlsFailure
          (mapUrlsToState moduleHeap [{ id := "1", items := some [{ url := "X" }, { url := "Y" }] }]).1
          none).2 ≠ defaultUrlsLiteral) := by
  refine ⟨fun h data => rfl, by decide, by decide, by decide⟩

/-- C10: modelling the backend as a table from which `delete().eq('id', id)`
removes the matching rows, every post in a subsequently fetched list has an
id different from the deleted one. -/
theorem deleted_post_absent_from_fetch (table : List BlogPostRow) (id : String)
    (fmt : String → String) (p : BlogPost)
    (hp : p ∈ blogPostsQueryFn fmt (deletePostMutationFn table id)) :
    p.id ≠ id := by
  rcases List.mem_map.mp hp with ⟨r, hr, rfl⟩
  have hr2 : r ∈ deletePostMutationFn table id :=
    (List.perm_insertionSort
      (fun a b => b.created_at ≤ a.created_at)
      (deletePostMutationFn table id)).subset hr
  have hr3 := (List.mem_filter.mp hr2).2
  have hid : r.id ≠ id := by simpa using hr3
  simpa [rowToBlogPost] using hid

/-- A concrete stored row. -/
def rowA : BlogPostRow :=
  { id := "a", created_at := "2024-01-02T00:00:00.000Z", title := some "A"
    slug := none, excerpt := none, content := some "isi", cover_image := none
    category := none, author := none, status := "draft", published_at := none
    seo_title := none, meta_description := none, focus_keyword := none }

/-- A second stored row. -/
def rowB : BlogPostRow :=
  { id := "b", created_at := "2024-01-01T00:00:00.000Z", title := some "B"
    slug := none, excerpt := none, content := some "isi", cover_image := none
    category := none, author := none, status := "draft", published_at := none
    seo_title := none, meta_description := none, focus_keyword := none }

/-- Witness for C10: after deleting "a" from the table `[rowA, rowB]`, the
fetched list still contains `rowB`'s post, and its id is not "a". -/
theorem deleted_post_absent_from_fetch_witness :
    (rowToBlogPost (fun d => d) rowB).id ≠ "a" :=
  deleted_post_absent_from_fetch [rowA, rowB] "a" (fun d => d)
    (rowToBlogPost (fun d => d) rowB) (by decide)
